import Mathlib

/- Shallow embedding of `src/webui/static/app.js`, the client-side state
reconciliation and task-polling engine of the Liar's Bar web dashboard.

Modelling conventions:
* The DOM handles read at module top (`recordGrid`, `detailPanel`,
  `summaryStats`, `toast`, `startGameBtn`) are assumed present, matching the
  page the app ships with; the `if (!element) return` guards of the source
  are therefore never taken and are noted in comments where they occur.
* All mutable page state (module-level `let` bindings plus the DOM state the
  code reads back) is gathered into the structure `St`.  DOM writes become
  field updates; user-observable effects (toasts, issued detail fetches,
  timer scheduling/clearing, triggered refreshes) are appended to an ordered
  event log `St.events`.
* JavaScript values parsed from response bodies are modelled by the `Json`
  inductive; JavaScript truthiness of such values is `Json.truthy`, and the
  truthiness of a string id is `(· ≠ "")` (the only falsy string is `""`).
  `null`/`undefined` slots of string ids are modelled with `Option String`.
* `async` functions are split at their suspension points: issuing a fetch is
  one state transition, the completion callback (given the fetch outcome as
  an explicit `Except` input) is another.  This reflects the single-threaded
  event-loop execution model described in the spec. -/

namespace LiarsBarDashboard

/- JavaScript/JSON values as delivered by `response.json()`. -/
inductive Json where
  | null
  | bool (b : Bool)
  | num (n : Int)
  | str (s : String)
  | arr (elems : List Json)
  | obj (fields : List (String × Json))

/- JavaScript truthiness of a parsed JSON value. -/
def Json.truthy : Json → Bool
  | .null => false
  | .bool b => b
  | .num n => n != 0
  | .str s => s != ""
  | .arr _ => true
  | .obj _ => true

/- First binding of a key in an object's field list (JSON objects produced by
`JSON.parse` have unique keys, so first-vs-last is immaterial). -/
def lookupField : List (String × Json) → String → Option Json
  | [], _ => none
  | (k, v) :: rest, key => if k = key then some v else lookupField rest key

/- Property access `j?.key` / `j.key`: a key lookup on objects, `undefined`
(here `none`) on every other value. -/
def Json.lookup : Json → String → Option Json
  | .obj fs, key => lookupField fs key
  | _, _ => none

/- `j.key === s` for a string literal `s`: true only when the property is that
exact string. -/
def Json.keyIsStr (j : Json) (key s : String) : Bool :=
  match j.lookup key with
  | some (.str t) => t = s
  | _ => false

mutual

/- JavaScript string coercion `String(v)` of a parsed JSON value, as used when
a value is interpolated into an error message. -/
def Json.display : Json → String
  | .null => "null"
  | .bool b => if b then "true" else "false"
  | .num n => toString n
  | .str s => s
  | .arr xs => String.intercalate "," (Json.displayList xs)
  | .obj _ => "[object Object]"

/- Array elements under `Array.prototype.join`: `null` becomes the empty
string, everything else its string coercion. -/
def Json.displayList : List Json → List String
  | [] => []
  | .null :: rest => "" :: Json.displayList rest
  | j :: rest => Json.display j :: Json.displayList rest

end

/- The error object thrown by `fetchJSON` on a non-ok response
(app.js lines 34-39): message, HTTP status, and the parsed payload. -/
structure RequestError where
  message : String
  status : Nat
  payload : Option Json

/- A settled `fetch` response as consumed by `fetchJSON`: the `ok` flag, the
status code, and the result of `response.json()` — `some v` when the body
parsed to `v`, `none` when parsing threw (empty or unparseable body). -/
structure HttpResponse where
  ok : Bool
  status : Nat
  parsedBody : Option Json

/- `payload?.error || `请求失败：${response.status}`` (app.js line 35): the
server-supplied `error` field when it is truthy, else the generic message. -/
def jsErrorMessageOf (payload : Option Json) (status : Nat) : String :=
  match payload with
  | some p =>
    match p.lookup "error" with
    | some e => if e.truthy then e.display else "请求失败：" ++ toString status
    | none => "请求失败：" ++ toString status
  | none => "请求失败：" ++ toString status

/- `fetchJSON` (app.js lines 25-43).  The body is parsed (or fails to parse)
before the `ok` check; `payload ?? {}` replaces both a failed parse and a
parsed JSON `null` by the empty object. -/
def fetchJSON (resp : HttpResponse) : Except RequestError Json :=
  let payload := resp.parsedBody
  if resp.ok = false then
    .error { message := jsErrorMessageOf payload resp.status
             status := resp.status
             payload := payload }
  else
    match payload with
    | none => .ok (Json.obj [])
    | some Json.null => .ok (Json.obj [])
    | some v => .ok v

/- One element of `payload.records` as rendered into a card
(app.js lines 135-158); only `id` feeds the selection logic, the remaining
fields are card text. -/
structure RecordSummary where
  id : String
  name : String
  winner : Option String
  players : List String
  round_count : Nat
  updated_at : String
  source : String
  deriving DecidableEq

/- `payload.summary` as consumed by `renderSummary` (app.js lines 56-71). -/
structure Summary where
  total_records : Nat
  unique_players : List String
  winner_breakdown : List (String × Nat)
  deriving DecidableEq

/- The contents of the detail panel. -/
inductive DetailView where
  | initial
  | loading
  | emptyState (msg : String)
  | rendered (record : Json)

/- User-observable effects, in the order the code performs them. -/
inductive Effect where
  | toastShown (msg tone : String)
  | detailFetchStarted (recordId : String)
  | timerScheduled
  | timerCleared
  | refreshTriggered (preferredId : Option String) (forceDetail : Bool)
  deriving DecidableEq

/- The whole mutable page state. -/
structure St where
  /- `data-record-id` of the record cards in the grid, in DOM order.  The
  placeholder card rendered for an empty list carries no record id and is
  therefore not listed. -/
  cards : List String
  /- Index of the card currently carrying the `active` class, if any; the
  code clears every mark before setting one, so at most one card is marked. -/
  activeMark : Option Nat
  /- Module-level `activeCardId` (app.js line 8). -/
  activeCardId : Option String
  /- Module-level `pendingRecordId` (app.js line 9). -/
  pendingRecordId : Option String
  /- The URL's `record` query parameter. -/
  urlRecord : Option String
  /- The URL's legacy `record_path` query parameter. -/
  urlRecordPath : Option String
  detailPanel : DetailView
  /- Last summary rendered into `summaryStats`. -/
  summaryView : Option Summary
  /- Module-level `gameTaskTimer` (app.js line 10); browsers return positive
  timer handles, modelled by a running counter. -/
  gameTaskTimer : Option Nat
  timerSeq : Nat
  buttonLabel : String
  buttonDisabled : Bool
  events : List Effect

/- The resolved `startButtonDefaultLabel` (app.js line 11) for a page without
a `data-default-label` attribute. -/
def startButtonDefaultLabel : String := "开始新对局"

def notFoundToastMsg : String := "未找到指定的对局记录"
def detailFailToastMsg : String := "加载对局详情失败，请稍后再试"
def detailFailPanelMsg : String := "加载失败，请稍后重试。"
def noRecordsPanelMsg : String := "暂无对局记录，请先运行一局游戏。"
def listFailToastMsg : String := "获取对局列表失败，请检查服务端日志"
def pollFailToastMsg : String := "轮询对局状态失败，请查看日志"
def taskDoneToastMsg : String := "新对局完成，已更新记录列表"
def taskFailedPrefix : String := "对局运行失败："
def unknownErrorMsg : String := "未知错误"
def emptyDetailDefaultMsg : String := "未找到对局详情。"

/- `showToast` (app.js lines 13-23); the timed hide-again transitions carry no
state the claims mention, so only the emission is recorded. -/
def showToast (msg tone : String) (s : St) : St :=
  { s with events := s.events ++ [Effect.toastShown msg tone] }

/- `updateRecordParam` (app.js lines 73-81): writes the `record` parameter
only for a truthy id, always deletes `record_path`.  `history.replaceState`
is available in the assumed browser environment. -/
def updateRecordParam (recordId : String) (s : St) : St :=
  let s := if recordId ≠ "" then { s with urlRecord := some recordId } else s
  { s with urlRecordPath := none }

/- `renderEmptyDetail` (app.js lines 83-90). -/
def renderEmptyDetail (msg : String) (s : St) : St :=
  { s with detailPanel := DetailView.emptyState msg }

/- `renderSummary` (app.js lines 56-71): replaces the summary panel wholesale. -/
def renderSummary (summary : Summary) (s : St) : St :=
  { s with summaryView := some summary }

/- Boolean membership in a list of ids (`Array.prototype.includes`). -/
def listHas (l : List String) (x : String) : Bool :=
  match l with
  | [] => false
  | y :: rest => if y = x then true else listHas rest x

/- `recordGrid.querySelector('.record-card[data-record-id="..."]')`: index of
the first card whose id matches, if any. -/
def findCardIdx (cards : List String) (recordId : String) : Option Nat :=
  match cards with
  | [] => none
  | c :: rest =>
    if c = recordId then some 0 else (findCardIdx rest recordId).map (· + 1)

/- Issuing the detail fetch: the first half of `loadRecordDetail`
(app.js lines 288-291) up to the `await`.  The panel shows the loading text
and the fetch for `recordId` is recorded as started. -/
def loadRecordDetailStart (recordId : String) (s : St) : St :=
  { s with detailPanel := DetailView.loading
           events := s.events ++ [Effect.detailFetchStarted recordId] }

/- `renderDetail` (app.js lines 196-286): a falsy record renders the default
empty placeholder, otherwise the record is rendered into the panel. -/
def renderDetail (record : Json) (s : St) : St :=
  if record.truthy = false then renderEmptyDetail emptyDetailDefaultMsg s
  else { s with detailPanel := DetailView.rendered record }

/- Completion of a detail fetch: the second half of `loadRecordDetail`
(app.js lines 292-299), run when the fetch for `recordId` settles with
`result`.  The source never consults `recordId` (nor the current
`activeCardId`) here — there is no stale-response guard — which is why the
parameter is unused. -/
def loadRecordDetailComplete (_recordId : String)
    (result : Except RequestError Json) (s : St) : St :=
  match result with
  | .ok data => renderDetail data s
  | .error _ =>
    let s := showToast detailFailToastMsg "error" s
    renderEmptyDetail detailFailPanelMsg s

/- `setActiveRecord` (app.js lines 92-117).  Returns the JS boolean result
paired with the new state.  `recordGrid` is present, so the entry guard
reduces to the truthiness of `recordId`. -/
def setActiveRecord (recordId : String) (force updateUrl : Bool) (s : St) :
    Bool × St :=
  if recordId = "" then (false, s)
  else
    match findCardIdx s.cards recordId with
    | none => (false, s)
    | some idx =>
      let s := { s with pendingRecordId := none }
      if force = false ∧ s.activeCardId = some recordId then
        let s := if updateUrl then updateRecordParam recordId s else s
        (true, s)
      else
        let s := { s with activeMark := some idx, activeCardId := some recordId }
        let s := if updateUrl then updateRecordParam recordId s else s
        let s := loadRecordDetailStart recordId s
        (true, s)

/- The candidate assembly of `renderRecordList` (app.js lines 160-179),
reading the module state as it stands after the preferred-id warning step:
truthy `preferredId` first, then truthy `pendingRecordId` and truthy
`activeCardId` each only when not already present, and the first record's id
exactly when the list would otherwise be empty (`records[0]` is an object and
hence truthy in the non-empty branch where this runs). -/
def candidatesOf (preferredId pendingId activeId : Option String)
    (firstId : String) : List String :=
  let c1 : List String :=
    match preferredId with
    | some p => if p ≠ "" then [p] else []
    | none => []
  let c2 : List String :=
    match pendingId with
    | some q => if q ≠ "" ∧ listHas c1 q = false then c1 ++ [q] else c1
    | none => c1
  let c3 : List String :=
    match activeId with
    | some a => if a ≠ "" ∧ listHas c2 a = false then c2 ++ [a] else c2
    | none => c2
  if c3.isEmpty then [firstId] else c3

/- The preferred-id warning step of `renderRecordList` (app.js lines
161-170, side effects only; the push of `preferredId` itself is part of
`candidatesOf`): when a truthy `preferredId` is absent from the fetched
records, a warning toast is shown and, if it equals `pendingRecordId`, the
pending intent is cleared. -/
def applyPreferredWarning (records : List RecordSummary)
    (preferredId : Option String) (s : St) : St :=
  match preferredId with
  | some p =>
    if p ≠ "" ∧ records.any (fun r => r.id = p) = false then
      let s := showToast notFoundToastMsg "error" s
      if s.pendingRecordId = some p then { s with pendingRecordId := none }
      else s
    else s
  | none => s

/- The candidate loop of `renderRecordList` (app.js lines 181-189): falsy
candidates are skipped; each remaining candidate is forced when `forceDetail`
is set or it equals the current `pendingRecordId`; the loop stops at the
first `setActiveRecord` that returns true, yielding that candidate. -/
def trySelectLoop (forceDetail : Bool) : List String → St → Option String × St
  | [], s => (none, s)
  | c :: rest, s =>
    if c = "" then trySelectLoop forceDetail rest s
    else
      let res := setActiveRecord c (forceDetail || s.pendingRecordId == some c)
        true s
      if res.1 then (some c, res.2) else trySelectLoop forceDetail rest res.2

/- `renderRecordList` (app.js lines 119-194).  The grid is rebuilt from the
fetched records (dropping every previous card and its `active` mark), the
empty list renders placeholders and clears the active id, and otherwise the
candidate loop (with its fallback to the first record, forced) runs.  The
first component generalises the JS `selected` flag: it is the id of the one
record this call successfully activated, or `none` when every activation
attempt (including the line 191-193 fallback) returned false. -/
def renderRecordList (records : List RecordSummary) (preferredId : Option String)
    (forceDetail : Bool) (s : St) : Option String × St :=
  match records with
  | [] =>
    (none, renderEmptyDetail noRecordsPanelMsg
      { s with cards := [], activeMark := none, activeCardId := none })
  | r0 :: rest =>
    let s1 := { s with cards := (r0 :: rest).map (fun r => r.id)
                       activeMark := none }
    let s2 := applyPreferredWarning (r0 :: rest) preferredId s1
    let cands := candidatesOf preferredId s2.pendingRecordId s2.activeCardId
      r0.id
    match trySelectLoop forceDetail cands s2 with
    | (some c, s3) => (some c, s3)
    | (none, s3) =>
      let res := setActiveRecord r0.id true true s3
      (if res.1 then some r0.id else none, res.2)

/- `preferredId || pendingRecordId || null` (app.js line 309): JS `||` falls
through falsy values. -/
def firstTruthyId (preferredId pendingId : Option String) : Option String :=
  match preferredId with
  | some p => if p ≠ "" then some p else
      match pendingId with
      | some q => if q ≠ "" then some q else none
      | none => none
  | none =>
      match pendingId with
      | some q => if q ≠ "" then some q else none
      | none => none

/- `refreshDashboard` (app.js lines 302-315), with the outcome of the
`/api/records` fetch (already decoded into summary and records, as the §6
interface specifies) passed explicitly.  The invocation itself is logged so
that triggered refreshes are observable. -/
def refreshDashboard (preferredId : Option String) (forceDetail : Bool)
    (result : Except RequestError (Summary × List RecordSummary)) (s : St) :
    St :=
  let s := { s with
    events := s.events ++ [Effect.refreshTriggered preferredId forceDetail] }
  match result with
  | .error _ => showToast listFailToastMsg "error" s
  | .ok (summary, records) =>
    let s := renderSummary summary s
    let targetId := firstTruthyId preferredId s.pendingRecordId
    (renderRecordList records targetId forceDetail s).2

/- `setStartButtonState` (app.js lines 317-321); the button is present. -/
def setStartButtonState (label : String) (disabled : Bool) (s : St) : St :=
  { s with buttonLabel := label, buttonDisabled := disabled }

/- JS truthiness of the stored timer handle (`if (gameTaskTimer)`). -/
def timerTruthy : Option Nat → Bool
  | some h => h != 0
  | none => false

/- `clearGameTaskTimer` (app.js lines 323-328). -/
def clearGameTaskTimer (s : St) : St :=
  if timerTruthy s.gameTaskTimer then
    { s with gameTaskTimer := none, events := s.events ++ [Effect.timerCleared] }
  else s

/- `gameTaskTimer = window.setTimeout(poll, 3500)` (app.js line 340): a fresh
positive handle is stored and the scheduling recorded. -/
def scheduleNextPoll (s : St) : St :=
  { s with gameTaskTimer := some (s.timerSeq + 1)
           timerSeq := s.timerSeq + 1
           events := s.events ++ [Effect.timerScheduled] }

/- `payload.record_id || null` (app.js line 348); per the §6 interface a
present `record_id` is a string, and a falsy one falls through to `null`. -/
def recordIdOf (payload : Json) : Option String :=
  match payload.lookup "record_id" with
  | some (Json.str r) => if r = "" then none else some r
  | _ => none

/- `payload.error || '未知错误'` (app.js line 353). -/
def taskErrorText (payload : Json) : String :=
  match payload.lookup "error" with
  | some e => if e.truthy then e.display else unknownErrorMsg
  | none => unknownErrorMsg

/- One execution of the `poll` closure inside `monitorGameTask`
(app.js lines 336-361): `pollResult` is the settled outcome of the
`/api/games/{taskId}` fetch, and `refreshResult` the outcome of the
`/api/records` fetch that the `finished` branch awaits. -/
def pollTick (pollResult : Except RequestError Json)
    (refreshResult : Except RequestError (Summary × List RecordSummary))
    (s : St) : St :=
  match pollResult with
  | .error _ =>
    let s := clearGameTaskTimer s
    let s := setStartButtonState startButtonDefaultLabel false s
    showToast pollFailToastMsg "error" s
  | .ok payload =>
    if payload.keyIsStr "status" "running" then scheduleNextPoll s
    else
      let s := clearGameTaskTimer s
      let s := setStartButtonState startButtonDefaultLabel false s
      if payload.keyIsStr "status" "finished" then
        let recordId := recordIdOf payload
        let s := { s with pendingRecordId := recordId }
        let s := showToast taskDoneToastMsg "info" s
        refreshDashboard recordId true refreshResult s
      else if payload.keyIsStr "status" "failed" then
        showToast (taskFailedPrefix ++ taskErrorText payload) "error" s
      else s

/- A freshly loaded page with no `record` URL parameter, before `bootstrap`
runs (app.js lines 1-11). -/
def emptySt : St :=
  { cards := []
    activeMark := none
    activeCardId := none
    pendingRecordId := none
    urlRecord := none
    urlRecordPath := none
    detailPanel := DetailView.initial
    summaryView := none
    gameTaskTimer := none
    timerSeq := 0
    buttonLabel := startButtonDefaultLabel
    buttonDisabled := false
    events := [] }

/- A record summary whose card text fields are blank; only the id matters to
the selection logic. -/
def mkRec (i : String) : RecordSummary :=
  { id := i, name := "", winner := none, players := [], round_count := 0
    updated_at := "", source := "" }

/- ### Specification-side definitions

The following definitions are written from the spec's words, to be compared
with the definitions embedded from the source. -/

/- The first candidate accepted against the fetched id sequence, the first
record's id when none is (spec §4.2: a candidate is accepted iff its id
exists in the current record sequence; otherwise the first record is the
forced fallback). -/
def selectedCandidate (cands ids : List String) (firstId : String) : String :=
  match cands.find? (fun c => listHas ids c) with
  | some c => c
  | none => firstId

def dedupFirstAux (seen : List String) : List String → List String
  | [] => []
  | x :: xs =>
    if listHas seen x then dedupFirstAux seen xs
    else x :: dedupFirstAux (x :: seen) xs

/- Duplicate removal preserving each id's first occurrence (spec §4.2). -/
def dedupFirst (l : List String) : List String := dedupFirstAux [] l

def optToList : Option String → List String
  | some x => [x]
  | none => []

/- Modelled from the spec (§4.2, C4): the candidate priority list — supplied
`preferredId`, then the outstanding `pendingRecordId`, then the current
active id, duplicates removed keeping first occurrences, with the first
record's id used exactly when the list would otherwise be empty. -/
def specPriorityCandidates (preferredId pendingId activeId : Option String)
    (firstId : String) : List String :=
  let base := dedupFirst (optToList preferredId ++ optToList pendingId
    ++ optToList activeId)
  if base.isEmpty then [firstId] else base

/- Recognizes the "referenced record not found" warning toast among events. -/
def isNotFoundWarning : Effect → Bool
  | Effect.toastShown m _ => m = notFoundToastMsg
  | _ => false

/- Concrete fixtures used by witness statements. -/
def pollingSt : St :=
  { emptySt with gameTaskTimer := some 1, buttonLabel := "对局运行中…"
                 buttonDisabled := true }

def finishedPayload : Json :=
  Json.obj [("status", Json.str "finished"), ("record_id", Json.str "r9")]

def refreshOkR9 : Except RequestError (Summary × List RecordSummary) :=
  Except.ok ({ total_records := 1, unique_players := []
               winner_breakdown := [] }, [mkRec "r9"])

/- ### Basic lemmas about card lookup and `setActiveRecord` -/

theorem findCardIdx_none (cards : List String) (x : String)
    (h : listHas cards x = false) : findCardIdx cards x = none := by
  induction cards with
  | nil => rfl
  | cons c rest ih =>
    by_cases hc : c = x
    · simp [listHas, hc] at h
    · simp only [listHas, if_neg hc] at h
      simp [findCardIdx, hc, ih h]

theorem findCardIdx_mem (cards : List String) (x : String)
    (h : listHas cards x = true) : ∃ i, findCardIdx cards x = some i := by
  induction cards with
  | nil => simp [listHas] at h
  | cons c rest ih =>
    by_cases hc : c = x
    · exact ⟨0, by simp [findCardIdx, hc]⟩
    · simp only [listHas, if_neg hc] at h
      obtain ⟨i, hi⟩ := ih h
      exact ⟨i + 1, by simp [findCardIdx, hc, hi]⟩

theorem listHas_ne (l : List String) (c p : String) (hc : listHas l c = true)
    (hp : listHas l p = false) : c ≠ p := by
  intro h
  rw [h] at hc
  rw [hc] at hp
  exact Bool.noConfusion hp

theorem any_id_eq_listHas (records : List RecordSummary) (p : String) :
    records.any (fun r => r.id = p)
      = listHas (records.map (fun r => r.id)) p := by
  induction records with
  | nil => rfl
  | cons r rest ih =>
    by_cases hr : r.id = p
    · simp [listHas, hr]
    · simp only [List.any_cons, List.map_cons, listHas, if_neg hr]
      simp [hr, ih]

/- A falsy id or an id without a card leaves the call with `false` and the
state untouched (the `pendingRecordId = null` write sits after both guards). -/
theorem setActiveRecord_rejected (recordId : String) (force updateUrl : Bool)
    (s : St) (h : recordId = "" ∨ listHas s.cards recordId = false) :
    setActiveRecord recordId force updateUrl s = (false, s) := by
  rcases h with h | h
  · simp [setActiveRecord, h]
  · by_cases he : recordId = ""
    · simp [setActiveRecord, he]
    · simp [setActiveRecord, he, findCardIdx_none _ _ h]

/- A truthy id with a card always succeeds; both the early-return path and the
full path end with the id active, the pending intent cleared, the URL synced,
and at most one detail fetch issued. -/
theorem setActiveRecord_success (recordId : String) (force : Bool) (s : St)
    (hne : recordId ≠ "") (hmem : listHas s.cards recordId = true) :
    (setActiveRecord recordId force true s).1 = true ∧
    (setActiveRecord recordId force true s).2.pendingRecordId = none ∧
    (setActiveRecord recordId force true s).2.activeCardId = some recordId ∧
    (setActiveRecord recordId force true s).2.cards = s.cards ∧
    (setActiveRecord recordId force true s).2.urlRecord = some recordId ∧
    ((setActiveRecord recordId force true s).2.events = s.events ∨
      (setActiveRecord recordId force true s).2.events
        = s.events ++ [Effect.detailFetchStarted recordId]) := by
  obtain ⟨idx, hidx⟩ := findCardIdx_mem _ _ hmem
  by_cases hb : force = false ∧ s.activeCardId = some recordId
  · refine ⟨?_, ?_, ?_, ?_, ?_, Or.inl ?_⟩ <;>
      simp [setActiveRecord, hne, hidx, hb, hb.1, hb.2, updateRecordParam]
  · refine ⟨?_, ?_, ?_, ?_, ?_, Or.inr ?_⟩ <;>
      simp [setActiveRecord, hne, hidx, hb, updateRecordParam,
        loadRecordDetailStart]

/- `setActiveRecord` never touches the supervisor fields, the summary, or the
card list. -/
theorem setActiveRecord_frame (recordId : String) (force updateUrl : Bool)
    (s : St) :
    (setActiveRecord recordId force updateUrl s).2.gameTaskTimer
        = s.gameTaskTimer ∧
    (setActiveRecord recordId force updateUrl s).2.buttonLabel
        = s.buttonLabel ∧
    (setActiveRecord recordId force updateUrl s).2.buttonDisabled
        = s.buttonDisabled ∧
    (setActiveRecord recordId force updateUrl s).2.timerSeq = s.timerSeq ∧
    (setActiveRecord recordId force updateUrl s).2.summaryView
        = s.summaryView ∧
    (setActiveRecord recordId force updateUrl s).2.cards = s.cards := by
  by_cases he : recordId = ""
  · simp [setActiveRecord, he]
  · rcases h : findCardIdx s.cards recordId with _ | idx
    · simp [setActiveRecord, he, h]
    · by_cases hb : force = false ∧ s.activeCardId = some recordId <;>
        by_cases hu : updateUrl <;>
        simp [setActiveRecord, he, h, hb, hu, updateRecordParam,
          loadRecordDetailStart]

/- `setActiveRecord` only ever appends to the event log. -/
theorem setActiveRecord_events (recordId : String) (force updateUrl : Bool)
    (s : St) :
    ∃ t, (setActiveRecord recordId force updateUrl s).2.events
      = s.events ++ t := by
  by_cases he : recordId = ""
  · exact ⟨[], by simp [setActiveRecord, he]⟩
  · rcases h : findCardIdx s.cards recordId with _ | idx
    · exact ⟨[], by simp [setActiveRecord, he, h]⟩
    · by_cases hb : force = false ∧ s.activeCardId = some recordId
      · exact ⟨[], by by_cases hu : updateUrl <;>
          simp [setActiveRecord, he, h, hb, hu, updateRecordParam]⟩
      · exact ⟨[Effect.detailFetchStarted recordId], by
          by_cases hu : updateUrl <;>
            simp [setActiveRecord, he, h, hb, hu, updateRecordParam,
              loadRecordDetailStart]⟩

/- ### The candidate list and the selection loop -/

/- The warning step touches only the event log and `pendingRecordId`. -/
theorem applyPreferredWarning_frame (records : List RecordSummary)
    (pref : Option String) (s : St) :
    (applyPreferredWarning records pref s).activeCardId = s.activeCardId ∧
    (applyPreferredWarning records pref s).cards = s.cards ∧
    (applyPreferredWarning records pref s).activeMark = s.activeMark ∧
    (applyPreferredWarning records pref s).gameTaskTimer = s.gameTaskTimer ∧
    (applyPreferredWarning records pref s).buttonLabel = s.buttonLabel ∧
    (applyPreferredWarning records pref s).buttonDisabled = s.buttonDisabled ∧
    (applyPreferredWarning records pref s).timerSeq = s.timerSeq ∧
    (applyPreferredWarning records pref s).summaryView = s.summaryView := by
  rcases pref with _ | p
  · simp [applyPreferredWarning]
  · simp only [applyPreferredWarning]
    split_ifs <;> simp [showToast]

/- Every candidate the code assembles is truthy or is the first record's id
(the only unguarded push). -/
theorem mem_candidatesOf (preferredId pendingId activeId : Option String)
    (firstId c : String)
    (h : c ∈ candidatesOf preferredId pendingId activeId firstId) :
    c ≠ "" ∨ c = firstId := by
  rcases preferredId with _ | p <;> rcases pendingId with _ | q <;>
    rcases activeId with _ | a <;>
    simp only [candidatesOf] at h <;>
    split_ifs at h <;> aesop

/- The selection loop is the first accepted candidate: failures leave the
state untouched, so the loop either finds the first candidate whose id has a
card and activates it in the original state, or returns the state unchanged. -/
theorem trySelectLoop_eq (forceDetail : Bool) (cands : List String) (s : St)
    (h : ∀ c ∈ cands, c ≠ "") :
    trySelectLoop forceDetail cands s =
      match cands.find? (fun c => listHas s.cards c) with
      | none => (none, s)
      | some c =>
        (some c,
          (setActiveRecord c (forceDetail || s.pendingRecordId == some c)
            true s).2) := by
  induction cands with
  | nil => rfl
  | cons c rest ih =>
    have hc : c ≠ "" := h c (List.mem_cons_self c rest)
    have hrest : ∀ x ∈ rest, x ≠ "" := fun x hx => h x (List.mem_cons_of_mem _ hx)
    by_cases hm : listHas s.cards c = true
    · have hs := setActiveRecord_success c
        (forceDetail || s.pendingRecordId == some c) s hc hm
      rw [List.find?_cons_of_pos _ hm]
      simp only [trySelectLoop, if_neg hc, hs.1]
      simp
    · have hmf : listHas s.cards c = false := by
        cases hh : listHas s.cards c
        · rfl
        · exact absurd hh hm
      have hr := setActiveRecord_rejected c
        (forceDetail || s.pendingRecordId == some c) true s (Or.inr hmf)
      rw [List.find?_cons_of_neg _ (by simp [hmf])]
      simp only [trySelectLoop, if_neg hc, hr]
      exact ih hrest

/- With a non-empty record list whose ids are all truthy, `renderRecordList`
activates exactly the first accepted candidate (the first record, forced, when
none is accepted): that id is returned, is a member of the fetched sequence,
ends up active with the pending intent cleared, and beyond the warning step
the only possible extra event is the one detail fetch for the chosen id. -/
theorem renderRecordList_nonempty (r0 : RecordSummary)
    (rest : List RecordSummary) (pref : Option String) (fd : Bool) (s : St)
    (hids : ∀ r ∈ r0 :: rest, r.id ≠ "") :
    ∃ c,
      (renderRecordList (r0 :: rest) pref fd s).1 = some c ∧
      c = selectedCandidate
            (candidatesOf pref
              (applyPreferredWarning (r0 :: rest) pref
                { s with cards := (r0 :: rest).map (fun r => r.id)
                         activeMark := none }).pendingRecordId
              s.activeCardId r0.id)
            ((r0 :: rest).map (fun r => r.id)) r0.id ∧
      listHas ((r0 :: rest).map (fun r => r.id)) c = true ∧
      (renderRecordList (r0 :: rest) pref fd s).2.activeCardId = some c ∧
      (renderRecordList (r0 :: rest) pref fd s).2.pendingRecordId = none ∧
      (renderRecordList (r0 :: rest) pref fd s).2.cards
        = (r0 :: rest).map (fun r => r.id) ∧
      ∃ t,
        (renderRecordList (r0 :: rest) pref fd s).2.events
          = (applyPreferredWarning (r0 :: rest) pref
              { s with cards := (r0 :: rest).map (fun r => r.id)
                       activeMark := none }).events ++ t ∧
        (t = [] ∨ t = [Effect.detailFetchStarted c]) := by
  have hr0 : r0.id ≠ "" := hids r0 (List.mem_cons_self r0 rest)
  have hfirstHas : listHas ((r0 :: rest).map (fun r => r.id)) r0.id = true := by
    simp [listHas]
  simp only [renderRecordList]
  set s2 := applyPreferredWarning (r0 :: rest) pref
    { s with cards := (r0 :: rest).map (fun r => r.id)
             activeMark := none } with hs2
  have hframe := applyPreferredWarning_frame (r0 :: rest) pref
    { s with cards := (r0 :: rest).map (fun r => r.id)
             activeMark := none }
  rw [← hs2] at hframe
  have hact2 : s2.activeCardId = s.activeCardId := by
    rw [hframe.1]
  have hcards2 : s2.cards = (r0 :: rest).map (fun r => r.id) := by
    rw [hframe.2.1]
  have hcne : ∀ c ∈ candidatesOf pref s2.pendingRecordId s2.activeCardId r0.id,
      c ≠ "" := by
    intro c hc
    rcases mem_candidatesOf _ _ _ _ _ hc with h | h
    · exact h
    · rw [h]; exact hr0
  rw [← hact2]
  rw [trySelectLoop_eq fd _ s2 hcne]
  rw [hcards2]
  rcases hfind : (candidatesOf pref s2.pendingRecordId s2.activeCardId
      r0.id).find? (fun c => listHas ((r0 :: rest).map (fun r => r.id)) c)
    with _ | c
  · rw [hfind]
    have hsucc := setActiveRecord_success r0.id true s2 hr0
      (by rw [hcards2]; exact hfirstHas)
    refine ⟨r0.id, ?_, ?_, hfirstHas, ?_, ?_, ?_, ?_⟩
    · simp [hsucc.1]
    · have hfind' := hfind
      simp only [List.map_cons] at hfind'
      simp [selectedCandidate, hfind']
    · simpa using hsucc.2.2.1
    · simpa using hsucc.2.1
    · simp only []
      rw [hsucc.2.2.2.1, hcards2]
    · rcases hsucc.2.2.2.2.2 with h | h
      · exact ⟨[], by simpa using h, Or.inl rfl⟩
      · exact ⟨[Effect.detailFetchStarted r0.id], by simpa using h, Or.inr rfl⟩
  · rw [hfind]
    have hcmem : c ∈ candidatesOf pref s2.pendingRecordId s2.activeCardId
        r0.id := List.mem_of_find?_eq_some hfind
    have hchas : listHas ((r0 :: rest).map (fun r => r.id)) c = true := by
      have := List.find?_some hfind
      simpa using this
    have hcne' : c ≠ "" := hcne c hcmem
    have hsucc := setActiveRecord_success c
      (fd || s2.pendingRecordId == some c) s2 hcne'
      (by rw [hcards2]; exact hchas)
    refine ⟨c, by simp, ?_, hchas, ?_, ?_, ?_, ?_⟩
    · have hfind' := hfind
      simp only [List.map_cons] at hfind'
      simp [selectedCandidate, hfind']
    · simpa using hsucc.2.2.1
    · simpa using hsucc.2.1
    · simp only []
      rw [hsucc.2.2.2.1, hcards2]
    · rcases hsucc.2.2.2.2.2 with h | h
      · exact ⟨[], by simpa using h, Or.inl rfl⟩
      · exact ⟨[Effect.detailFetchStarted c], by simpa using h, Or.inr rfl⟩

/- The warning step can change `pendingRecordId` only by clearing a value
equal to the supplied `preferredId`, and that value would have been removed
as a duplicate anyway: the candidate list is unaffected. -/
theorem candidatesOf_warning_pending (records : List RecordSummary)
    (pref : Option String) (s : St) (act : Option String) (f : String) :
    candidatesOf pref (applyPreferredWarning records pref s).pendingRecordId
      act f = candidatesOf pref s.pendingRecordId act f := by
  rcases pref with _ | p
  · rfl
  · simp only [applyPreferredWarning]
    split_ifs with h1 h2
    · have hp : p ≠ "" := h1.1
      have hsp : s.pendingRecordId = some p := by
        simpa [showToast] using h2
      rw [hsp]
      simp [candidatesOf, listHas, hp]
    · simp [showToast]
    · rfl

/- Events appended by the warning step. -/
theorem applyPreferredWarning_events (records : List RecordSummary)
    (pref : Option String) (s : St) :
    (applyPreferredWarning records pref s).events = s.events ∨
    (applyPreferredWarning records pref s).events
      = s.events ++ [Effect.toastShown notFoundToastMsg "error"] := by
  rcases pref with _ | p
  · exact Or.inl rfl
  · simp only [applyPreferredWarning]
    split_ifs
    · exact Or.inr (by simp [showToast])
    · exact Or.inr (by simp [showToast])
    · exact Or.inl rfl

/- The code's candidate assembly coincides with the spec's priority list
whenever the three id slots hold real (truthy) ids. -/
theorem candidatesOf_eq_spec (preferredId pendingId activeId : Option String)
    (firstId : String) (hp : preferredId ≠ some "") (hq : pendingId ≠ some "")
    (ha : activeId ≠ some "") :
    candidatesOf preferredId pendingId activeId firstId
      = specPriorityCandidates preferredId pendingId activeId firstId := by
  rcases preferredId with _ | p <;> rcases pendingId with _ | q <;>
    rcases activeId with _ | a
  · rfl
  · have ha' : a ≠ "" := by simpa using ha
    simp [candidatesOf, specPriorityCandidates, dedupFirst, dedupFirstAux,
      optToList, listHas, ha']
  · have hq' : q ≠ "" := by simpa using hq
    simp [candidatesOf, specPriorityCandidates, dedupFirst, dedupFirstAux,
      optToList, listHas, hq']
  · have hq' : q ≠ "" := by simpa using hq
    have ha' : a ≠ "" := by simpa using ha
    by_cases hqa : q = a <;>
      simp [candidatesOf, specPriorityCandidates, dedupFirst, dedupFirstAux,
        optToList, listHas, hq', ha', hqa]
  · have hp' : p ≠ "" := by simpa using hp
    simp [candidatesOf, specPriorityCandidates, dedupFirst, dedupFirstAux,
      optToList, listHas, hp']
  · have hp' : p ≠ "" := by simpa using hp
    have ha' : a ≠ "" := by simpa using ha
    by_cases hpa : p = a <;>
      simp [candidatesOf, specPriorityCandidates, dedupFirst, dedupFirstAux,
        optToList, listHas, hp', ha', hpa]
  · have hp' : p ≠ "" := by simpa using hp
    have hq' : q ≠ "" := by simpa using hq
    by_cases hpq : p = q <;>
      simp [candidatesOf, specPriorityCandidates, dedupFirst, dedupFirstAux,
        optToList, listHas, hp', hq', hpq]
  · have hp' : p ≠ "" := by simpa using hp
    have hq' : q ≠ "" := by simpa using hq
    have ha' : a ≠ "" := by simpa using ha
    by_cases hpq : p = q <;> by_cases hpa : p = a <;> by_cases hqa : q = a <;>
      simp_all [candidatesOf, specPriorityCandidates, dedupFirst, dedupFirstAux,
        optToList, listHas]

/- A forced activation of a present truthy id takes the full path: it issues
exactly one detail fetch and keeps the card list. -/
theorem setActiveRecord_force_events (recordId : String) (s : St)
    (hne : recordId ≠ "") (hmem : listHas s.cards recordId = true) :
    (setActiveRecord recordId true true s).2.events
      = s.events ++ [Effect.detailFetchStarted recordId] ∧
    (setActiveRecord recordId true true s).2.cards = s.cards := by
  obtain ⟨idx, hidx⟩ := findCardIdx_mem _ _ hmem
  constructor <;>
    simp [setActiveRecord, hne, hidx, updateRecordParam, loadRecordDetailStart]

/- ### Frame and event lemmas for the supervisor-facing operations -/

theorem trySelectLoop_frame (fd : Bool) (cands : List String) (s : St) :
    (trySelectLoop fd cands s).2.gameTaskTimer = s.gameTaskTimer ∧
    (trySelectLoop fd cands s).2.buttonLabel = s.buttonLabel ∧
    (trySelectLoop fd cands s).2.buttonDisabled = s.buttonDisabled ∧
    (trySelectLoop fd cands s).2.timerSeq = s.timerSeq := by
  induction cands generalizing s with
  | nil => exact ⟨rfl, rfl, rfl, rfl⟩
  | cons c rest ih =>
    by_cases hc : c = ""
    · simpa [trySelectLoop, hc] using ih s
    · simp only [trySelectLoop, if_neg hc]
      rcases hres : setActiveRecord c (fd || s.pendingRecordId == some c) true s
        with ⟨b, s'⟩
      have hfr := setActiveRecord_frame c (fd || s.pendingRecordId == some c)
        true s
      rw [hres] at hfr
      cases b
      · have hrec := ih s'
        simp only [Bool.false_eq_true, if_false]
        exact ⟨hrec.1.trans hfr.1, hrec.2.1.trans hfr.2.1,
          hrec.2.2.1.trans hfr.2.2.1, hrec.2.2.2.trans hfr.2.2.2.1⟩
      · simp only [if_true]
        exact ⟨hfr.1, hfr.2.1, hfr.2.2.1, hfr.2.2.2.1⟩

theorem trySelectLoop_events (fd : Bool) (cands : List String) (s : St) :
    ∃ t, (trySelectLoop fd cands s).2.events = s.events ++ t := by
  induction cands generalizing s with
  | nil => exact ⟨[], by simp [trySelectLoop]⟩
  | cons c rest ih =>
    by_cases hc : c = ""
    · simpa [trySelectLoop, hc] using ih s
    · simp only [trySelectLoop, if_neg hc]
      rcases hres : setActiveRecord c (fd || s.pendingRecordId == some c) true s
        with ⟨b, s'⟩
      have hev := setActiveRecord_events c (fd || s.pendingRecordId == some c)
        true s
      rw [hres] at hev
      obtain ⟨t1, ht1⟩ := hev
      cases b
      · obtain ⟨t2, ht2⟩ := ih s'
        exact ⟨t1 ++ t2, by
          simp only [Bool.false_eq_true, if_false]
          rw [ht2, ht1, List.append_assoc]⟩
      · exact ⟨t1, by simpa using ht1⟩

theorem renderRecordList_frame (records : List RecordSummary)
    (pref : Option String) (fd : Bool) (s : St) :
    (renderRecordList records pref fd s).2.gameTaskTimer = s.gameTaskTimer ∧
    (renderRecordList records pref fd s).2.buttonLabel = s.buttonLabel ∧
    (renderRecordList records pref fd s).2.buttonDisabled = s.buttonDisabled ∧
    (renderRecordList records pref fd s).2.timerSeq = s.timerSeq := by
  rcases records with _ | ⟨r0, rest⟩
  · exact ⟨rfl, rfl, rfl, rfl⟩
  · simp only [renderRecordList]
    set s2 := applyPreferredWarning (r0 :: rest) pref
      { s with cards := (r0 :: rest).map (fun r => r.id)
               activeMark := none } with hs2
    have hframe := applyPreferredWarning_frame (r0 :: rest) pref
      { s with cards := (r0 :: rest).map (fun r => r.id)
               activeMark := none }
    rw [← hs2] at hframe
    have hw1 : s2.gameTaskTimer = s.gameTaskTimer := hframe.2.2.2.1
    have hw2 : s2.buttonLabel = s.buttonLabel := hframe.2.2.2.2.1
    have hw3 : s2.buttonDisabled = s.buttonDisabled := hframe.2.2.2.2.2.1
    have hw4 : s2.timerSeq = s.timerSeq := hframe.2.2.2.2.2.2.1
    rcases hloop : trySelectLoop fd
        (candidatesOf pref s2.pendingRecordId s2.activeCardId r0.id) s2
      with ⟨sel, s3⟩
    have hlf := trySelectLoop_frame fd
      (candidatesOf pref s2.pendingRecordId s2.activeCardId r0.id) s2
    rw [hloop] at hlf
    rcases sel with _ | c
    · rcases hres : setActiveRecord r0.id true true s3 with ⟨b, s4⟩
      have hfr := setActiveRecord_frame r0.id true true s3
      rw [hres] at hfr
      simp only []
      rw [hres]
      exact ⟨(hfr.1.trans hlf.1).trans hw1,
        (hfr.2.1.trans hlf.2.1).trans hw2,
        (hfr.2.2.1.trans hlf.2.2.1).trans hw3,
        (hfr.2.2.2.1.trans hlf.2.2.2).trans hw4⟩
    · exact ⟨hlf.1.trans hw1, hlf.2.1.trans hw2, hlf.2.2.1.trans hw3,
        hlf.2.2.2.trans hw4⟩

theorem renderRecordList_events (records : List RecordSummary)
    (pref : Option String) (fd : Bool) (s : St) :
    ∃ t, (renderRecordList records pref fd s).2.events = s.events ++ t := by
  rcases records with _ | ⟨r0, rest⟩
  · exact ⟨[], by simp [renderRecordList, renderEmptyDetail]⟩
  · simp only [renderRecordList]
    set s2 := applyPreferredWarning (r0 :: rest) pref
      { s with cards := (r0 :: rest).map (fun r => r.id)
               activeMark := none } with hs2
    have hwe : ∃ t0, s2.events = s.events ++ t0 := by
      rcases applyPreferredWarning_events (r0 :: rest) pref
          { s with cards := (r0 :: rest).map (fun r => r.id)
                   activeMark := none } with h | h
      · exact ⟨[], by rw [← hs2] at h; simpa using h⟩
      · exact ⟨[Effect.toastShown notFoundToastMsg "error"], by
          rw [← hs2] at h; simpa using h⟩
    obtain ⟨t0, ht0⟩ := hwe
    rcases hloop : trySelectLoop fd
        (candidatesOf pref s2.pendingRecordId s2.activeCardId r0.id) s2
      with ⟨sel, s3⟩
    have hle := trySelectLoop_events fd
      (candidatesOf pref s2.pendingRecordId s2.activeCardId r0.id) s2
    rw [hloop] at hle
    obtain ⟨t1, ht1⟩ := hle
    rcases sel with _ | c
    · rcases hres : setActiveRecord r0.id true true s3 with ⟨b, s4⟩
      have hfe := setActiveRecord_events r0.id true true s3
      rw [hres] at hfe
      obtain ⟨t2, ht2⟩ := hfe
      refine ⟨t0 ++ t1 ++ t2, ?_⟩
      simp only []
      rw [hres]
      rw [ht2, ht1, ht0]
      simp [List.append_assoc]
    · exact ⟨t0 ++ t1, by
        simp only []
        rw [ht1, ht0, List.append_assoc]⟩

theorem refreshDashboard_frame (p : Option String) (f : Bool)
    (r : Except RequestError (Summary × List RecordSummary)) (s : St) :
    (refreshDashboard p f r s).gameTaskTimer = s.gameTaskTimer ∧
    (refreshDashboard p f r s).buttonLabel = s.buttonLabel ∧
    (refreshDashboard p f r s).buttonDisabled = s.buttonDisabled ∧
    (refreshDashboard p f r s).timerSeq = s.timerSeq := by
  rcases r with e | ⟨summary, records⟩
  · simp [refreshDashboard, showToast]
  · simp only [refreshDashboard]
    have hfr := renderRecordList_frame records
      (firstTruthyId p
        { s with events := s.events ++ [Effect.refreshTriggered p f]
        }.pendingRecordId) f
      (renderSummary summary
        { s with events := s.events ++ [Effect.refreshTriggered p f] })
    simpa [renderSummary] using hfr

theorem refreshDashboard_events (p : Option String) (f : Bool)
    (r : Except RequestError (Summary × List RecordSummary)) (s : St) :
    ∃ t, (refreshDashboard p f r s).events
      = s.events ++ [Effect.refreshTriggered p f] ++ t := by
  rcases r with e | ⟨summary, records⟩
  · exact ⟨[Effect.toastShown listFailToastMsg "error"], by
      simp [refreshDashboard, showToast]⟩
  · simp only [refreshDashboard]
    have hev := renderRecordList_events records
      (firstTruthyId p
        { s with events := s.events ++ [Effect.refreshTriggered p f]
        }.pendingRecordId) f
      (renderSummary summary
        { s with events := s.events ++ [Effect.refreshTriggered p f] })
    obtain ⟨t, ht⟩ := hev
    exact ⟨t, by simpa [renderSummary] using ht⟩

/- A JSON payload's `status` field is a single value: two different expected
strings cannot both match. -/
theorem keyIsStr_unique (j : Json) (k a b : String) (h : j.keyIsStr k a = true)
    (hab : a ≠ b) : j.keyIsStr k b = false := by
  cases hv : j.lookup k with
  | none => simp [Json.keyIsStr, hv] at h
  | some v =>
    cases v <;> simp [Json.keyIsStr, hv] at h ⊢
    subst h
    exact hab

/- A timer slot that is not JS-truthy and not the unreachable handle 0 is
empty. -/
theorem timer_none_of_not_truthy (s : St) (htimer : s.gameTaskTimer ≠ some 0)
    (h : timerTruthy s.gameTaskTimer = false) : s.gameTaskTimer = none := by
  rcases hg : s.gameTaskTimer with _ | n
  · rfl
  · rw [hg] at h htimer
    simp [timerTruthy] at h
    exact absurd (by rw [h]) htimer

/- ### Claim theorems -/

/-- C10: calling `setActiveRecord` with a falsy id, or with an id that has no
corresponding card in the current record grid, returns `false` and leaves the
entire state unchanged — `activeCardId`, `pendingRecordId`, the URL
parameters, the card markings, the detail panel, and the event log are
exactly as before the call. -/
theorem c10_rejected_activation_frame (recordId : String)
    (force updateUrl : Bool) (s : St)
    (h : recordId = "" ∨ listHas s.cards recordId = false) :
    setActiveRecord recordId force updateUrl s = (false, s) :=
  setActiveRecord_rejected recordId force updateUrl s h

/-- Witness for C10: with only card "r1" in the grid, activating "r9" is a
no-op returning false. -/
theorem c10_rejected_activation_frame_witness :
    setActiveRecord "r9" true true { emptySt with cards := ["r1"] }
      = (false, { emptySt with cards := ["r1"] }) :=
  c10_rejected_activation_frame "r9" true true { emptySt with cards := ["r1"] }
    (Or.inr (by decide))

/-- C2 counterexample: with the pending intent "r9" still unresolved,
activating the different record "r2" (a card click, hence forced) succeeds
and clears `pendingRecordId`, although "r9" did not become active and was not
checked against any fetched sequence — refuting the claim that no other
operation clears a still-unresolved pending intent. -/
theorem c2_pending_cleared_by_other_activation_cex :
    (setActiveRecord "r2" true true
        { emptySt with cards := ["r1", "r2"]
                       pendingRecordId := some "r9" }).1 = true ∧
    (setActiveRecord "r2" true true
        { emptySt with cards := ["r1", "r2"]
                       pendingRecordId := some "r9" }).2.pendingRecordId
      = none ∧
    ("r9" : String) ≠ "r2" :=
  ⟨rfl, rfl, by decide⟩

/-- C2 (amended): `pendingRecordId` is cleared by every successful activation
— whichever record is activated, whether or not it is the pending one — and
additionally when a supplied `preferredId` equal to it is proven absent from
a non-empty fetched record sequence. -/
theorem c2_pending_clearing (recordId : String) (force updateUrl : Bool)
    (s : St) (records : List RecordSummary) (p : String) (s' : St) :
    ((setActiveRecord recordId force updateUrl s).1 = true →
      (setActiveRecord recordId force updateUrl s).2.pendingRecordId = none) ∧
    (p ≠ "" → records.any (fun r => r.id = p) = false →
      s'.pendingRecordId = some p →
      (applyPreferredWarning records (some p) s').pendingRecordId = none) := by
  constructor
  · intro h
    by_cases he : recordId = ""
    · rw [setActiveRecord_rejected _ _ _ _ (Or.inl he)] at h
      exact absurd h (by simp)
    · rcases hf : findCardIdx s.cards recordId with _ | idx
      · simp [setActiveRecord, he, hf] at h
      · by_cases hb : force = false ∧ s.activeCardId = some recordId <;>
          by_cases hu : updateUrl <;>
          simp [setActiveRecord, he, hf, hb, hu, updateRecordParam,
            loadRecordDetailStart]
  · intro hp hany hpend
    simp [applyPreferredWarning, hp, hany, showToast, hpend]

/-- Witness for C2: both clearing paths exercised at concrete states. -/
theorem c2_pending_clearing_witness :
    (setActiveRecord "r2" true true
        { emptySt with cards := ["r2"]
                       pendingRecordId := some "r9" }).2.pendingRecordId
      = none ∧
    (applyPreferredWarning [mkRec "r1"] (some "r9")
        { emptySt with pendingRecordId := some "r9" }).pendingRecordId
      = none :=
  ⟨(c2_pending_clearing "r2" true true
      { emptySt with cards := ["r2"], pendingRecordId := some "r9" }
      [] "x" emptySt).1 (by rfl),
   (c2_pending_clearing "" true true emptySt [mkRec "r1"] "r9"
      { emptySt with pendingRecordId := some "r9" }).2 (by decide) (by rfl)
      (by rfl)⟩

/-- C6: activating the id that is already active with `force = false` (and
the default `updateUrl = true`) performs no additional detail fetch, leaves
the card markings, the selection and the detail panel untouched, and still
resynchronizes the URL's `record` parameter to that id. -/
theorem c6_idempotent_reselection (recordId : String) (s : St)
    (hact : s.activeCardId = some recordId) (hne : recordId ≠ "")
    (hmem : listHas s.cards recordId = true) :
    (setActiveRecord recordId false true s).1 = true ∧
    (setActiveRecord recordId false true s).2.events = s.events ∧
    (setActiveRecord recordId false true s).2.activeMark = s.activeMark ∧
    (setActiveRecord recordId false true s).2.activeCardId = s.activeCardId ∧
    (setActiveRecord recordId false true s).2.detailPanel = s.detailPanel ∧
    (setActiveRecord recordId false true s).2.urlRecord = some recordId := by
  obtain ⟨idx, hidx⟩ := findCardIdx_mem _ _ hmem
  refine ⟨?_, ?_, ?_, ?_, ?_, ?_⟩ <;>
    simp [setActiveRecord, hne, hidx, hact, updateRecordParam]

/-- Witness for C6: re-selecting the already-active "r1". -/
theorem c6_idempotent_reselection_witness :
    (setActiveRecord "r1" false true
        { emptySt with cards := ["r1"], activeCardId := some "r1" }).1
      = true ∧
    (setActiveRecord "r1" false true
        { emptySt with cards := ["r1"], activeCardId := some "r1" }).2.events
      = ({ emptySt with cards := ["r1"], activeCardId := some "r1" } : St).events ∧
    (setActiveRecord "r1" false true
        { emptySt with cards := ["r1"], activeCardId := some "r1" }).2.activeMark
      = ({ emptySt with cards := ["r1"], activeCardId := some "r1" } : St).activeMark ∧
    (setActiveRecord "r1" false true
        { emptySt with cards := ["r1"], activeCardId := some "r1" }).2.activeCardId
      = ({ emptySt with cards := ["r1"], activeCardId := some "r1" } : St).activeCardId ∧
    (setActiveRecord "r1" false true
        { emptySt with cards := ["r1"], activeCardId := some "r1" }).2.detailPanel
      = ({ emptySt with cards := ["r1"], activeCardId := some "r1" } : St).detailPanel ∧
    (setActiveRecord "r1" false true
        { emptySt with cards := ["r1"], activeCardId := some "r1" }).2.urlRecord
      = some "r1" :=
  c6_idempotent_reselection "r1"
    { emptySt with cards := ["r1"], activeCardId := some "r1" }
    rfl (by decide) (by rfl)

/-- C7: the Fetch Gateway parses the body regardless of status (the parsed
payload is carried even on errors); a non-ok response yields an error with
the server-supplied (non-empty string) `error` message when present and the
generic "请求失败：{status}" message otherwise, together with the parsed body
and the status code; an ok response with an unparseable or empty body yields
the empty object instead of failing. -/
theorem c7_fetch_gateway_contract (resp : HttpResponse) :
    (resp.ok = false → ∀ p m, resp.parsedBody = some p →
      p.lookup "error" = some (Json.str m) → m ≠ "" →
      fetchJSON resp = Except.error
        { message := m, status := resp.status, payload := some p }) ∧
    (resp.ok = false → ∀ p, resp.parsedBody = some p →
      p.lookup "error" = none →
      fetchJSON resp = Except.error
        { message := "请求失败：" ++ toString resp.status
          status := resp.status, payload := some p }) ∧
    (resp.ok = false → resp.parsedBody = none →
      fetchJSON resp = Except.error
        { message := "请求失败：" ++ toString resp.status
          status := resp.status, payload := none }) ∧
    (resp.ok = true → resp.parsedBody = none →
      fetchJSON resp = Except.ok (Json.obj [])) := by
    refine ⟨?_, ?_, ?_, ?_⟩
    · intro hok p m hbody herr hm
      simp [fetchJSON, hok, hbody, jsErrorMessageOf, herr, Json.truthy, hm,
        Json.display]
    · intro hok p hbody herr
      simp [fetchJSON, hok, hbody, jsErrorMessageOf, herr]
    · intro hok hbody
      simp [fetchJSON, hok, hbody, jsErrorMessageOf]
    · intro hok hbody
      simp [fetchJSON, hok, hbody]

/-- Witness for C7: a 404 carrying `{error: "missing"}` surfaces exactly that
message, body, and status. -/
theorem c7_fetch_gateway_contract_witness :
    fetchJSON
        { ok := false, status := 404
          parsedBody := some (Json.obj [("error", Json.str "missing")]) }
      = Except.error
        { message := "missing", status := 404
          payload := some (Json.obj [("error", Json.str "missing")]) } :=
  (c7_fetch_gateway_contract
      { ok := false, status := 404
        parsedBody := some (Json.obj [("error", Json.str "missing")]) }).1
    rfl (Json.obj [("error", Json.str "missing")]) "missing" rfl rfl
    (by decide)

/-- C9 counterexample: a failed detail load does not leave the previously
rendered detail intact — the panel that showed the record "old" ends up
showing the failure placeholder instead. -/
theorem c9_detail_failure_replaces_panel_cex :
    (loadRecordDetailComplete "r1"
        (Except.error { message := "boom", status := 500, payload := none })
        { emptySt with
          detailPanel := DetailView.rendered (Json.str "old") }).detailPanel
      = DetailView.emptyState detailFailPanelMsg ∧
    DetailView.emptyState detailFailPanelMsg
      ≠ DetailView.rendered (Json.str "old") :=
  ⟨rfl, fun h => DetailView.noConfusion h⟩

/-- C9 (amended): a failed dashboard refresh surfaces the list-failure toast
and leaves every piece of view state — summary, record list, card markings,
selection, URL and detail panel — exactly as before; a failed detail load
surfaces its toast and leaves summary, record list and selection intact, but
replaces the detail panel with the failure placeholder rather than keeping
the previously rendered detail. -/
theorem c9_failure_atomicity (p : Option String) (f : Bool)
    (e e2 : RequestError) (recordId : String) (s s2 : St) :
    refreshDashboard p f (Except.error e) s
      = { s with events := s.events
            ++ [Effect.refreshTriggered p f,
                Effect.toastShown listFailToastMsg "error"] } ∧
    loadRecordDetailComplete recordId (Except.error e2) s2
      = { s2 with
          detailPanel := DetailView.emptyState detailFailPanelMsg
          events := s2.events
            ++ [Effect.toastShown detailFailToastMsg "error"] } := by
  constructor
  · simp [refreshDashboard, showToast]
  · simp [loadRecordDetailComplete, showToast, renderEmptyDetail]

/-- C1 counterexample: records "A" then "B" are activated in that order, and
"A"'s detail response arrives after "B"'s; the panel ends up rendering "A"'s
detail rather than "B"'s, so the late response does overwrite B's view. -/
theorem c1_stale_overwrite_cex :
    (loadRecordDetailComplete "A" (Except.ok (Json.str "dA"))
        (loadRecordDetailComplete "B" (Except.ok (Json.str "dB"))
          ((setActiveRecord "B" true true
            ((setActiveRecord "A" true true
              { emptySt with cards := ["A", "B"] }).2)).2))).detailPanel
      = DetailView.rendered (Json.str "dA") ∧
    DetailView.rendered (Json.str "dA")
      ≠ DetailView.rendered (Json.str "dB") := by
  constructor
  · rfl
  · intro h
    injection h with h1
    injection h1 with h2
    exact absurd h2 (by decide)

/-- C1 (amended): there is no stale-response guard — the detail panel always
reflects whichever detail response completed last.  Activating record `a`
then record `b` (two card clicks, hence forced) issues a detail fetch for
each, and when `a`'s response (a truthy payload `dA`) completes after `b`'s,
the panel ends up rendering `dA`, the stale detail of `a`. -/
theorem c1_last_completion_wins (a b : String) (dA dB : Json) (s : St)
    (ha : a ≠ "") (hb : b ≠ "") (hma : listHas s.cards a = true)
    (hmb : listHas s.cards b = true) (htr : dA.truthy = true) :
    (loadRecordDetailComplete a (Except.ok dA)
        (loadRecordDetailComplete b (Except.ok dB)
          ((setActiveRecord b true true
            ((setActiveRecord a true true s).2)).2))).detailPanel
      = DetailView.rendered dA ∧
    ((setActiveRecord b true true
        ((setActiveRecord a true true s).2)).2).events
      = s.events ++ [Effect.detailFetchStarted a,
          Effect.detailFetchStarted b] := by
  have h1 := setActiveRecord_force_events a s ha hma
  have h2 := setActiveRecord_force_events b ((setActiveRecord a true true s).2)
    hb (by rw [h1.2]; exact hmb)
  constructor
  · simp [loadRecordDetailComplete, renderDetail, htr]
  · rw [h2.1, h1.1]
    simp

/-- Witness for C1 (amended) at the concrete "A"/"B" scenario. -/
theorem c1_last_completion_wins_witness :
    (loadRecordDetailComplete "A" (Except.ok (Json.str "dA"))
        (loadRecordDetailComplete "B" (Except.ok (Json.str "dB"))
          ((setActiveRecord "B" true true
            ((setActiveRecord "A" true true
              { emptySt with cards := ["A", "B"] }).2)).2))).detailPanel
      = DetailView.rendered (Json.str "dA") ∧
    ((setActiveRecord "B" true true
        ((setActiveRecord "A" true true
          { emptySt with cards := ["A", "B"] }).2)).2).events
      = ({ emptySt with cards := ["A", "B"] } : St).events
        ++ [Effect.detailFetchStarted "A", Effect.detailFetchStarted "B"] :=
  c1_last_completion_wins "A" "B" (Json.str "dA") (Json.str "dB")
    { emptySt with cards := ["A", "B"] }
    (by decide) (by decide) (by rfl) (by rfl) (by rfl)

/-- C3 counterexample: a non-empty fetched sequence whose single record has
the falsy id "" produces no activation at all — the loop skips the falsy
fallback candidate and the final forced fallback is rejected at the
`!recordId` guard — so the Reconciler does not activate exactly one record. -/
theorem c3_falsy_id_no_activation_cex :
    (renderRecordList [mkRec ""] none false emptySt).1 = none ∧
    (renderRecordList [mkRec ""] none false emptySt).2.activeCardId = none ∧
    (renderRecordList [mkRec ""] none false emptySt).2.events = [] :=
  ⟨rfl, rfl, rfl⟩

/-- C3 (amended): for every non-empty fetched record sequence whose ids are
all non-empty (JS-truthy) strings and every candidate-source state, the
Reconciler performs exactly one successful activation: it returns a single
activated id, that id is a member of the fetched sequence and ends up the
active id, and when every assembled candidate is rejected the activated id is
the first record's, forced. -/
theorem c3_selects_exactly_one_member (r0 : RecordSummary)
    (rest : List RecordSummary) (pref : Option String) (fd : Bool) (s : St)
    (hids : ∀ r ∈ r0 :: rest, r.id ≠ "") :
    ∃ c,
      (renderRecordList (r0 :: rest) pref fd s).1 = some c ∧
      listHas ((r0 :: rest).map (fun r => r.id)) c = true ∧
      (renderRecordList (r0 :: rest) pref fd s).2.activeCardId = some c ∧
      ((∀ c' ∈ candidatesOf pref
          (applyPreferredWarning (r0 :: rest) pref
            { s with cards := (r0 :: rest).map (fun r => r.id)
                     activeMark := none }).pendingRecordId
          s.activeCardId r0.id,
          listHas ((r0 :: rest).map (fun r => r.id)) c' = false) →
        c = r0.id) := by
  obtain ⟨c, h1, heq, hmemc, hactc, _, _, _⟩ :=
    renderRecordList_nonempty r0 rest pref fd s hids
  refine ⟨c, h1, hmemc, hactc, ?_⟩
  intro hall
  have hfind : (candidatesOf pref
      (applyPreferredWarning (r0 :: rest) pref
        { s with cards := (r0 :: rest).map (fun r => r.id)
                 activeMark := none }).pendingRecordId
      s.activeCardId r0.id).find?
        (fun c' => listHas ((r0 :: rest).map (fun r => r.id)) c') = none := by
    apply List.find?_eq_none.mpr
    intro x hx
    have hx' := hall x hx
    simp only [List.map_cons] at hx'
    simp [hx']
  rw [heq]
  simp only [List.map_cons] at hfind
  simp [selectedCandidate, hfind]

/-- Witness for C3 at the one-record sequence ["r1"]. -/
theorem c3_selects_exactly_one_member_witness :
    ∃ c,
      (renderRecordList [mkRec "r1"] none false emptySt).1 = some c ∧
      listHas (([mkRec "r1"] : List RecordSummary).map (fun r => r.id)) c
        = true ∧
      (renderRecordList [mkRec "r1"] none false emptySt).2.activeCardId
        = some c ∧
      ((∀ c' ∈ candidatesOf none
          (applyPreferredWarning [mkRec "r1"] none
            { emptySt with
                cards := ([mkRec "r1"] : List RecordSummary).map
                  (fun r => r.id)
                activeMark := none }).pendingRecordId
          emptySt.activeCardId (mkRec "r1").id,
          listHas (([mkRec "r1"] : List RecordSummary).map (fun r => r.id)) c'
            = false) →
        c = (mkRec "r1").id) :=
  c3_selects_exactly_one_member (mkRec "r1") [] none false emptySt
    (by
      intro r hr
      rw [List.mem_singleton] at hr
      subst hr
      decide)

/-- C4 counterexample: with the single fetched record carrying the falsy id
"", the assembled candidate list is exactly [""] and "" is a member of the
fetched sequence, yet it does not win — the loop skips falsy candidates
without trying them and nothing is activated. -/
theorem c4_falsy_candidate_never_tried_cex :
    candidatesOf none none none "" = [""] ∧
    listHas (([mkRec ""] : List RecordSummary).map (fun r => r.id)) ""
      = true ∧
    (renderRecordList [mkRec ""] none false emptySt).1 = none :=
  ⟨rfl, rfl, rfl⟩

/-- C4 (amended): whenever the three candidate sources and the record ids are
real (non-empty, JS-truthy) ids, the Reconciler's candidate list is exactly
the spec's priority list — supplied preferredId, then the outstanding
pendingRecordId, then the currently active id, duplicates removed preserving
first occurrences, with the first record's id used exactly when the list
would otherwise be empty — and the record activated is the first candidate
present in the fetched sequence (the first record, forced, when no candidate
is present). -/
theorem c4_candidate_priority_order (r0 : RecordSummary)
    (rest : List RecordSummary) (pref : Option String) (fd : Bool) (s : St)
    (hids : ∀ r ∈ r0 :: rest, r.id ≠ "") (hp : pref ≠ some "")
    (hq : s.pendingRecordId ≠ some "") (ha : s.activeCardId ≠ some "") :
    candidatesOf pref s.pendingRecordId s.activeCardId r0.id
      = specPriorityCandidates pref s.pendingRecordId s.activeCardId r0.id ∧
    (renderRecordList (r0 :: rest) pref fd s).1
      = some (selectedCandidate
          (candidatesOf pref s.pendingRecordId s.activeCardId r0.id)
          ((r0 :: rest).map (fun r => r.id)) r0.id) := by
  constructor
  · exact candidatesOf_eq_spec pref s.pendingRecordId s.activeCardId r0.id
      hp hq ha
  · obtain ⟨c, h1, heq, _, _, _, _, _⟩ :=
      renderRecordList_nonempty r0 rest pref fd s hids
    rw [h1, heq]
    have hpend := candidatesOf_warning_pending (r0 :: rest) pref
      { s with cards := (r0 :: rest).map (fun r => r.id), activeMark := none }
      s.activeCardId r0.id
    rw [hpend]

/-- Witness for C4: preferred "r2" against the sequence ["r1", "r2"]. -/
theorem c4_candidate_priority_order_witness :
    candidatesOf (some "r2") emptySt.pendingRecordId emptySt.activeCardId
        (mkRec "r1").id
      = specPriorityCandidates (some "r2") emptySt.pendingRecordId
          emptySt.activeCardId (mkRec "r1").id ∧
    (renderRecordList [mkRec "r1", mkRec "r2"] (some "r2") false emptySt).1
      = some (selectedCandidate
          (candidatesOf (some "r2") emptySt.pendingRecordId
            emptySt.activeCardId (mkRec "r1").id)
          (([mkRec "r1", mkRec "r2"] : List RecordSummary).map
            (fun r => r.id))
          (mkRec "r1").id) :=
  c4_candidate_priority_order (mkRec "r1") [mkRec "r2"] (some "r2") false
    emptySt
    (by
      intro r hr
      rcases List.mem_cons.mp hr with h | h
      · subst h; decide
      · rw [List.mem_singleton] at h
        subst h; decide)
    (by decide) (by decide) (by decide)

/-- C5 counterexample: with the fetched sequence empty and the absent
preferredId "r1" supplied, the empty-list early return skips the warning
entirely — no warning toast is emitted, though the claim demands exactly one
for this case too — and a matching pending intent survives the call, free to
be retried by the next refresh. -/
theorem c5_empty_sequence_no_warning_cex :
    (renderRecordList [] (some "r1") false
        { emptySt with pendingRecordId := some "r1" }).2.events = [] ∧
    (renderRecordList [] (some "r1") false
        { emptySt with pendingRecordId := some "r1" }).2.pendingRecordId
      = some "r1" :=
  ⟨rfl, rfl⟩

/-- C5 (amended): when `preferredId` is supplied and absent from a NON-EMPTY
fetched sequence of truthy ids, exactly one "referenced record not found"
warning is emitted during that reconciliation, no pending intent survives the
call (so the preferred id cannot be retried by the next unrelated refresh),
and the preferred id is not the record that ends up activated. -/
theorem c5_absent_preferred_single_warning (r0 : RecordSummary)
    (rest : List RecordSummary) (p : String) (fd : Bool) (s : St)
    (hids : ∀ r ∈ r0 :: rest, r.id ≠ "") (hp : p ≠ "")
    (habs : listHas ((r0 :: rest).map (fun r => r.id)) p = false) :
    (renderRecordList (r0 :: rest) (some p) fd s).2.events.countP
        isNotFoundWarning
      = s.events.countP isNotFoundWarning + 1 ∧
    (renderRecordList (r0 :: rest) (some p) fd s).2.pendingRecordId = none ∧
    (renderRecordList (r0 :: rest) (some p) fd s).2.activeCardId
      ≠ some p := by
  obtain ⟨c, h1, heq, hmemc, hactc, hpend, hcards, t, ht, htc⟩ :=
    renderRecordList_nonempty r0 rest (some p) fd s hids
  have hany : (r0 :: rest).any (fun r => r.id = p) = false := by
    rw [any_id_eq_listHas]; exact habs
  have hwarnev : (applyPreferredWarning (r0 :: rest) (some p)
      { s with cards := (r0 :: rest).map (fun r => r.id)
               activeMark := none }).events
      = s.events ++ [Effect.toastShown notFoundToastMsg "error"] := by
    simp only [applyPreferredWarning]
    rw [if_pos ⟨hp, hany⟩]
    split_ifs <;> simp [showToast]
  refine ⟨?_, hpend, ?_⟩
  · rw [ht, hwarnev]
    rcases htc with h | h <;> subst h <;>
      simp [List.countP_append, List.countP_cons, isNotFoundWarning]
  · have hcp : c ≠ p := listHas_ne _ c p hmemc habs
    rw [hactc]
    simp [hcp]

/-- Witness for C5: preferred "r9" absent from the sequence ["r1"]. -/
theorem c5_absent_preferred_single_warning_witness :
    (renderRecordList [mkRec "r1"] (some "r9") false emptySt).2.events.countP
        isNotFoundWarning
      = emptySt.events.countP isNotFoundWarning + 1 ∧
    (renderRecordList [mkRec "r1"] (some "r9") false
        emptySt).2.pendingRecordId = none ∧
    (renderRecordList [mkRec "r1"] (some "r9") false emptySt).2.activeCardId
      ≠ some "r9" :=
  c5_absent_preferred_single_warning (mkRec "r1") [] "r9" false emptySt
    (by
      intro r hr
      rw [List.mem_singleton] at hr
      subst hr
      decide)
    (by decide) (by rfl)

/-- C8: every terminal poll outcome — `finished`, `failed`, or a
transport/parse error — clears the scheduled poll timer handle and restores
the start-game control to its enabled default label; on a transport error or
a `failed` status the full appended event list is exhibited and contains no
triggered refresh, and on `finished` the timer clearing precedes the
triggered forced refresh in the event order. -/
theorem c8_poll_terminal_outcomes (payload : Json) (e : RequestError)
    (rr : Except RequestError (Summary × List RecordSummary)) (s : St)
    (htimer : s.gameTaskTimer ≠ some 0) :
    ((pollTick (Except.error e) rr s).gameTaskTimer = none ∧
      (pollTick (Except.error e) rr s).buttonLabel = startButtonDefaultLabel ∧
      (pollTick (Except.error e) rr s).buttonDisabled = false ∧
      (pollTick (Except.error e) rr s).events
        = s.events
          ++ (if timerTruthy s.gameTaskTimer then [Effect.timerCleared]
              else [])
          ++ [Effect.toastShown pollFailToastMsg "error"]) ∧
    (payload.keyIsStr "status" "failed" = true →
      (pollTick (Except.ok payload) rr s).gameTaskTimer = none ∧
      (pollTick (Except.ok payload) rr s).buttonLabel
        = startButtonDefaultLabel ∧
      (pollTick (Except.ok payload) rr s).buttonDisabled = false ∧
      (pollTick (Except.ok payload) rr s).events
        = s.events
          ++ (if timerTruthy s.gameTaskTimer then [Effect.timerCleared]
              else [])
          ++ [Effect.toastShown (taskFailedPrefix ++ taskErrorText payload)
                "error"]) ∧
    (payload.keyIsStr "status" "finished" = true →
      (pollTick (Except.ok payload) rr s).gameTaskTimer = none ∧
      (pollTick (Except.ok payload) rr s).buttonLabel
        = startButtonDefaultLabel ∧
      (pollTick (Except.ok payload) rr s).buttonDisabled = false ∧
      ∃ t,
        (pollTick (Except.ok payload) rr s).events
          = s.events
            ++ (if timerTruthy s.gameTaskTimer then [Effect.timerCleared]
                else [])
            ++ [Effect.toastShown taskDoneToastMsg "info",
                Effect.refreshTriggered (recordIdOf payload) true]
            ++ t) := by
  have htt : timerTruthy s.gameTaskTimer = true ∨
      (timerTruthy s.gameTaskTimer = false ∧ s.gameTaskTimer = none) := by
    cases h : timerTruthy s.gameTaskTimer
    · exact Or.inr ⟨rfl, timer_none_of_not_truthy s htimer h⟩
    · exact Or.inl rfl
  refine ⟨?_, ?_, ?_⟩
  · rcases htt with ht | ⟨ht, hg⟩
    · refine ⟨?_, ?_, ?_, ?_⟩ <;>
        simp [pollTick, clearGameTaskTimer, ht, setStartButtonState,
          showToast, List.append_assoc]
    · refine ⟨?_, ?_, ?_, ?_⟩ <;>
        simp [pollTick, clearGameTaskTimer, timerTruthy, ht, hg,
          setStartButtonState, showToast]
  · intro hfail
    have hrun : payload.keyIsStr "status" "running" = false :=
      keyIsStr_unique payload "status" "failed" "running" hfail (by decide)
    have hfin : payload.keyIsStr "status" "finished" = false :=
      keyIsStr_unique payload "status" "failed" "finished" hfail (by decide)
    rcases htt with ht | ⟨ht, hg⟩
    · refine ⟨?_, ?_, ?_, ?_⟩ <;>
        simp [pollTick, hrun, hfin, hfail, clearGameTaskTimer, ht,
          setStartButtonState, showToast, List.append_assoc]
    · refine ⟨?_, ?_, ?_, ?_⟩ <;>
        simp [pollTick, hrun, hfin, hfail, clearGameTaskTimer, timerTruthy,
          ht, hg, setStartButtonState, showToast]
  · intro hfin
    have hrun : payload.keyIsStr "status" "running" = false :=
      keyIsStr_unique payload "status" "finished" "running" hfin (by decide)
    set sPre := showToast taskDoneToastMsg "info"
      { setStartButtonState startButtonDefaultLabel false
          (clearGameTaskTimer s) with
        pendingRecordId := recordIdOf payload } with hsPre
    have hpoll : pollTick (Except.ok payload) rr s
        = refreshDashboard (recordIdOf payload) true rr sPre := by
      simp [pollTick, hrun, hfin, hsPre]
    have hfr := refreshDashboard_frame (recordIdOf payload) true rr sPre
    obtain ⟨t, htev⟩ := refreshDashboard_events (recordIdOf payload) true rr
      sPre
    rcases htt with ht | ⟨ht, hg⟩
    · refine ⟨?_, ?_, ?_, ⟨t, ?_⟩⟩
      · rw [hpoll, hfr.1]
        simp [hsPre, showToast, setStartButtonState, clearGameTaskTimer, ht]
      · rw [hpoll, hfr.2.1]
        simp [hsPre, showToast, setStartButtonState]
      · rw [hpoll, hfr.2.2.1]
        simp [hsPre, showToast, setStartButtonState]
      · rw [hpoll, htev]
        simp [hsPre, showToast, setStartButtonState, clearGameTaskTimer, ht,
          List.append_assoc]
    · refine ⟨?_, ?_, ?_, ⟨t, ?_⟩⟩
      · rw [hpoll, hfr.1]
        simp [hsPre, showToast, setStartButtonState, clearGameTaskTimer,
          timerTruthy, ht, hg]
      · rw [hpoll, hfr.2.1]
        simp [hsPre, showToast, setStartButtonState]
      · rw [hpoll, hfr.2.2.1]
        simp [hsPre, showToast, setStartButtonState]
      · rw [hpoll, htev]
        simp [hsPre, showToast, setStartButtonState, clearGameTaskTimer,
          timerTruthy, ht, hg, List.append_assoc]

/-- Witness for C8: a `finished` payload with record "r9", polled from a
state holding a live timer handle and a disabled "running…" button. -/
theorem c8_poll_terminal_outcomes_witness :
    (pollTick (Except.ok finishedPayload) refreshOkR9 pollingSt).gameTaskTimer
      = none ∧
    (pollTick (Except.ok finishedPayload) refreshOkR9 pollingSt).buttonLabel
      = startButtonDefaultLabel ∧
    (pollTick (Except.ok finishedPayload) refreshOkR9
        pollingSt).buttonDisabled = false ∧
    ∃ t,
      (pollTick (Except.ok finishedPayload) refreshOkR9 pollingSt).events
        = pollingSt.events
          ++ (if timerTruthy pollingSt.gameTaskTimer
              then [Effect.timerCleared] else [])
          ++ [Effect.toastShown taskDoneToastMsg "info",
              Effect.refreshTriggered (recordIdOf finishedPayload) true]
          ++ t :=
  (c8_poll_terminal_outcomes finishedPayload
      { message := "x", status := 500, payload := none }
      refreshOkR9 pollingSt (by simp [pollingSt, emptySt])).2.2 (by rfl)

end LiarsBarDashboard
